import Mathlib

/-!
Shallow embedding of the `webone` contact-book application (Rust/axum/sqlx/SQLite).

The database is a single SQLite table
`contacts(id INTEGER PRIMARY KEY, first_name, last_name, phone_number, email, created_at)`.
We model the table state as a list of rows in physical (rowid) order: in SQLite,
an `INTEGER PRIMARY KEY` column is the rowid, rows are stored in a B-tree keyed
by rowid, and a full table scan visits rows in ascending rowid order.  Inserts
append at the end (SQLite assigns `max rowid + 1`), so physical order coincides
with ascending `id` for every state this program can reach; theorems that depend
on scan order carry that invariant as an explicit sortedness hypothesis.

SQL statement semantics follow SQLite: `LIMIT n OFFSET k` with a negative `k`
behaves as offset 0 and a negative `n` means no limit; `LIKE` is
case-insensitive for ASCII; `fetch_one` on an empty result set is the
`RowNotFound` error.
-/

namespace Webone

/-- Persisted contact row (struct `Contact`, `contacts.rs`). -/
structure Contact where
  id : Int
  first_name : String
  last_name : String
  phone_number : String
  email : String
  created_at : String
deriving DecidableEq, Repr

/-- Optional per-field error payload (struct `NewContactErrors`, `contacts.rs`). -/
structure NewContactErrors where
  first_name : Option String
  last_name : Option String
  phone_number : Option String
  email : Option String
deriving DecidableEq, Repr

/-- Transient form input (struct `NewContact`, `contacts.rs`). -/
structure NewContact where
  first_name : String
  last_name : String
  phone_number : String
  email : String
  errors : Option NewContactErrors
deriving DecidableEq, Repr

/-- The sqlx error kinds this code can observe: `fetch_one` finding no row is
`RowNotFound`; every other storage failure is collapsed into `Other`. -/
inductive DbError where
  | RowNotFound : DbError
  | Other : String → DbError
deriving DecidableEq, Repr

/-- The `contacts` table: rows in physical (rowid) order. -/
abbrev Store := List Contact

/-- Decidable equality on `Except`, so concrete runs of the fallible store
operations can be checked by evaluation. -/
instance {ε α : Type} [DecidableEq ε] [DecidableEq α] : DecidableEq (Except ε α)
  | .ok a, .ok b =>
      if h : a = b then .isTrue (by rw [h])
      else .isFalse (by intro he; cases he; exact h rfl)
  | .ok _, .error _ => .isFalse (by intro h; cases h)
  | .error _, .ok _ => .isFalse (by intro h; cases h)
  | .error e, .error f =>
      if h : e = f then .isTrue (by rw [h])
      else .isFalse (by intro he; cases he; exact h rfl)

/-- SQLite `LIKE` over character lists, default (ASCII case-insensitive)
semantics: `%` matches any sequence of characters (tried against every
suffix), `_` matches any single character, any other pattern character
matches one character up to ASCII case. -/
def likeChars : List Char → List Char → Bool
  | [], s => s.isEmpty
  | '%' :: ps, s => (s.tails).any (likeChars ps)
  | '_' :: _, [] => false
  | '_' :: ps, _ :: t => likeChars ps t
  | _ :: _, [] => false
  | p :: ps, c :: t => (p.toLower == c.toLower) && likeChars ps t

/-- SQLite `LIKE` on strings. -/
def likeMatch (pattern s : String) : Bool :=
  likeChars pattern.toList s.toList

/-- `LIMIT ? OFFSET ?` as SQLite evaluates the two bound integers: a negative
offset behaves as 0 (`Int.toNat`), a negative limit means no limit. -/
def sqlLimitOffset (limit offset : Int) (rows : List Contact) : List Contact :=
  let dropped := rows.drop offset.toNat
  if limit < 0 then dropped else dropped.take limit.toNat

/-- The row order used by `ORDER BY id`. -/
def idLe (a b : Contact) : Prop := a.id ≤ b.id

instance : DecidableRel idLe := fun a b => inferInstanceAs (Decidable (a.id ≤ b.id))

instance : IsTotal Contact idLe := ⟨fun a b => Int.le_total a.id b.id⟩

instance : IsTrans Contact idLe := ⟨fun _ _ _ h h' => le_trans h h'⟩

/-- `ORDER BY id` (ascending). -/
def sortById (rows : List Contact) : List Contact :=
  List.insertionSort idLe rows

namespace Contact

/-- `Contact::update_from` (contacts.rs): overwrite the four form fields,
leaving `id` and `created_at` untouched. -/
def update_from (c : Contact) (new : NewContact) : Contact :=
  { c with
    first_name := new.first_name
    last_name := new.last_name
    phone_number := new.phone_number
    email := new.email }

/-- SQLite rowid assignment for an insert: one more than the largest rowid. -/
def nextId (s : Store) : Int :=
  (s.foldr (fun c m => max c.id m) 0) + 1

/-- `Contact::create` (contacts.rs): `INSERT ... RETURNING *`; the store
assigns `id` (next rowid) and `created_at` (the insertion timestamp `now`);
the new row lands at the end of the scan order. -/
def create (s : Store) (new : NewContact) (now : String) : Contact × Store :=
  let c : Contact :=
    { id := nextId s
      first_name := new.first_name
      last_name := new.last_name
      phone_number := new.phone_number
      email := new.email
      created_at := now }
  (c, s ++ [c])

/-- `Contact::update` (contacts.rs): `UPDATE contacts SET first_name = ?,
last_name = ?, phone_number = ?, email = ? WHERE id = ?` — only the four
listed columns are written, on every row whose `id` matches. -/
def update (c : Contact) (s : Store) : Store :=
  s.map (fun r =>
    if r.id = c.id then
      { r with
        first_name := c.first_name
        last_name := c.last_name
        phone_number := c.phone_number
        email := c.email }
    else r)

/-- `Contact::delete` (contacts.rs): `DELETE FROM contacts WHERE id = ?`;
the statement succeeds whether or not any row matched. -/
def delete (s : Store) (id : Int) : Except DbError Store :=
  .ok (s.filter (fun c => c.id != id))

/-- `Contact::get_all` (contacts.rs):
`SELECT * FROM contacts ORDER BY id LIMIT ? OFFSET ?` with
`offset = (page - 1) * per_page`, passed to storage unclamped. -/
def get_all (s : Store) (page per_page : Int) : List Contact :=
  sqlLimitOffset per_page ((page - 1) * per_page) (sortById s)

/-- `Contact::find_by_id` (contacts.rs): `SELECT * FROM contacts WHERE id = ?`
with `fetch_one` — the first matching row in scan order, or `RowNotFound`. -/
def find_by_id (s : Store) (id : Int) : Except DbError Contact :=
  match s.find? (fun c => c.id == id) with
  | some c => .ok c
  | none => .error .RowNotFound

/-- `Contact::search` (contacts.rs): `pattern = format!("%{term}%")`, then
`SELECT * FROM contacts WHERE first_name LIKE ? OR last_name LIKE ?
LIMIT ? OFFSET ?` — note there is no `ORDER BY`: rows come back in table
scan order (ascending rowid). -/
def search (s : Store) (term : String) (page per_page : Int) : List Contact :=
  let pattern := "%" ++ term ++ "%"
  sqlLimitOffset per_page ((page - 1) * per_page)
    (s.filter (fun c => likeMatch pattern c.first_name || likeMatch pattern c.last_name))

/-- `Contact::validate_email` (contacts.rs):
`SELECT EXISTS(SELECT 1 FROM contacts where email = ?)`. -/
def validate_email (s : Store) (email : String) : Bool :=
  s.any (fun c => c.email == email)

/-- `Contact::validate_phone` (contacts.rs):
`SELECT EXISTS(SELECT 1 FROM contacts where phone_number = ?)`. -/
def validate_phone (s : Store) (phone_number : String) : Bool :=
  s.any (fun c => c.phone_number == phone_number)

end Contact

/-- Pagination constant `PER_PAGE` (main.rs). -/
def PER_PAGE : Int := 10

/-- The two response bodies `post_new_contact` can produce: the
`ErrorMessageTemplate` flash or the `SuccessRedirectTemplate` flash. -/
inductive FormResponse where
  | errorMessage (msg : String)
  | successRedirect (msg : String)
deriving DecidableEq, Repr

/-- Handler `contacts` (main.rs): `page` defaults to 1 when the query
parameter is absent; a present `q` dispatches to `search`, otherwise
`get_all`; both get `PER_PAGE` as the page size. -/
def contactsHandler (s : Store) (q : Option String) (pageParam : Option Int) :
    List Contact :=
  let page := pageParam.getD 1
  match q with
  | some search_query => Contact.search s search_query page PER_PAGE
  | none => Contact.get_all s page PER_PAGE

/-- Handler `post_new_contact` (main.rs): runs `validate_email` and
`validate_phone` on the literal submitted strings; if either reports an
existing row the contact is NOT saved and the error flash is returned,
otherwise `create` is invoked. -/
def post_new_contact (s : Store) (new_contact : NewContact) (now : String) :
    FormResponse × Store :=
  let valid_email := Contact.validate_email s new_contact.email
  let valid_phone := Contact.validate_phone s new_contact.phone_number
  if valid_email || valid_phone then
    (.errorMessage "Email and/or phone number is already in use. Contact NOT SAVED", s)
  else
    (.successRedirect "Contact succesfully created. Redirecting",
      (Contact.create s new_contact now).2)

/-- Handler `post_edit_contact` (main.rs): `find_by_id`, `update_from`,
`update` — no uniqueness validation is performed on the edit path. -/
def post_edit_contact (s : Store) (id : Int) (new_contact : NewContact) :
    Except DbError Store := do
  let contact ← Contact.find_by_id s id
  let contact := contact.update_from new_contact
  return Contact.update contact s

/-- Handler `delete_contact` (main.rs): `Contact::delete`, then redirect. -/
def delete_contact (s : Store) (id : Int) : Except DbError Store :=
  Contact.delete s id

/-- `AppError` (utils.rs): a single wrapper around any failure; sqlx errors
arrive through the blanket `From` impl, template render failures likewise. -/
inductive AppError where
  | fromDb (e : DbError)
  | fromRender (msg : String)
deriving DecidableEq, Repr

/-- An HTTP response: status code and body. -/
structure HttpResponse where
  status : Nat
  body : String
deriving DecidableEq, Repr

/-- `AppError::into_response` (utils.rs): renders the `Error5xxTemplate`;
whether that render succeeds (`render = .ok html`) or itself fails
(`render = .error _`, falling back to a plain string body), the status is
500 INTERNAL_SERVER_ERROR. Nothing is retried and the error kind is not
inspected. -/
def into_response (_e : AppError) (render : Except String String) : HttpResponse :=
  match render with
  | .ok html => { status := 500, body := html }
  | .error _ => { status := 500, body := "Internal Server Error" }

/-- Rendering of `ShowContactTemplate` — modelled as a total function of the
contact (the template body is presentation, out of the spec's scope). -/
def renderShow (c : Contact) : String :=
  c.first_name ++ " " ++ c.last_name ++ " " ++ c.phone_number ++ " " ++ c.email

/-- Handler `show_contact` (main.rs): `find_by_id` (its failure propagates via
`?` into `AppError`), then render the contact with status 200 OK. -/
def show_contact (s : Store) (id : Int) : Except AppError HttpResponse := do
  let contact ← (Contact.find_by_id s id).mapError AppError.fromDb
  return { status := 200, body := renderShow contact }

/-- The axum boundary: an `Ok` from a handler is the response; an `Err` is
turned into a response by `AppError::into_response` (with `render` the
outcome of the 5xx template render). -/
def serve (r : Except AppError HttpResponse) (render : Except String String) :
    HttpResponse :=
  match r with
  | .ok resp => resp
  | .error e => into_response e render

/-- Handler `validate_input` (main.rs), email flag: the arm
`Some(email) if !email.is_empty()` runs the existence check; an absent or
empty parameter yields `false`. -/
def email_exists_flag (s : Store) (email : Option String) : Bool :=
  match email with
  | some e => if !e.isEmpty then Contact.validate_email s e else false
  | none => false

/-- Handler `validate_input` (main.rs), phone flag: same shape as the email
flag. -/
def phone_exists_flag (s : Store) (phone_number : Option String) : Bool :=
  match phone_number with
  | some p => if !p.isEmpty then Contact.validate_phone s p else false
  | none => false

/-- The disabled submit button HTML returned on any conflict (main.rs). -/
def disabledButtonHtml : String :=
  "<button id=\"submit-btn\" hx-swap-oob=\"true\" disabled class=\"btn-disabled\">Cannot save</button>"

/-- The enabled Save button HTML returned when there is no conflict (main.rs). -/
def saveButtonHtml : String :=
  "<button id=\"submit-btn\" hx-swap-oob=\"true\">Save</button>"

/-- The 2x2 `match (email_exists, phone_exists)` of `validate_input`
(main.rs): pairs of (error message, button HTML). -/
def validate_decision (email_exists phone_exists : Bool) : String × String :=
  match email_exists, phone_exists with
  | true, true =>
      ("⛔ Email and phone number already exist in your contacts", disabledButtonHtml)
  | true, false =>
      ("⛔ This email already exists in your contacts", disabledButtonHtml)
  | false, true =>
      ("⛔ This phone number already exists in your contacts", disabledButtonHtml)
  | false, false => ("", saveButtonHtml)

/-- Handler `validate_input` (main.rs): compute the two flags from the
optional query parameters, then apply the decision table. -/
def validate_input (s : Store) (email phone_number : Option String) :
    String × String :=
  validate_decision (email_exists_flag s email) (phone_exists_flag s phone_number)

/-- A decision allows submission exactly when its button is the enabled Save
button (no `disabled` attribute, caption "Save"). -/
def submissionAllowed (d : String × String) : Bool :=
  d.2 == saveButtonHtml

/-- Concrete row 1 for concrete-state theorems. -/
def alice : Contact :=
  { id := 1, first_name := "Alice", last_name := "Adams",
    phone_number := "111", email := "alice@x.com", created_at := "2024-01-01" }

/-- Concrete row 2. -/
def bob : Contact :=
  { id := 2, first_name := "Bob", last_name := "Brown",
    phone_number := "222", email := "bob@x.com", created_at := "2024-01-02" }

/-- Concrete row 3. -/
def carol : Contact :=
  { id := 3, first_name := "Carol", last_name := "Clark",
    phone_number := "333", email := "carol@x.com", created_at := "2024-01-03" }

/-- Concrete row 4. -/
def dave : Contact :=
  { id := 4, first_name := "Dave", last_name := "Dunn",
    phone_number := "444", email := "dave@x.com", created_at := "2024-01-04" }

/-- A two-row table. -/
def demoStore : Store := [alice, bob]

/-- A three-row table. -/
def threeStore : Store := [alice, bob, carol]

/-- A four-row table. -/
def fourStore : Store := [alice, bob, carol, dave]

/-- An edit form submission for Bob that reuses Alice's email. -/
def editToAliceEmail : NewContact :=
  { first_name := "Bob", last_name := "Brown", phone_number := "555",
    email := "alice@x.com", errors := none }

/-- A stored row whose email is the empty string. -/
def emptyEmailContact : Contact :=
  { id := 1, first_name := "Eve", last_name := "Empty",
    phone_number := "999", email := "", created_at := "2024-01-05" }

/-- A one-row table containing the empty-email row. -/
def emptyEmailStore : Store := [emptyEmailContact]

/-- A create form submission whose email field is the empty string and whose
phone number collides with nothing. -/
def emptyEmailForm : NewContact :=
  { first_name := "New", last_name := "Person", phone_number := "555",
    email := "", errors := none }

end Webone

namespace Webone

/-! ### Helper lemmas (shared) -/

/-- A lone `%` pattern matches every string. -/
theorem likeChars_percent (s : List Char) : likeChars ['%'] s = true := by
  rw [likeChars]
  rw [List.any_eq_true]
  refine ⟨[], ?_, rfl⟩
  exact (List.mem_tails _ _).mpr List.nil_suffix

/-- The pattern built from the empty search term matches every string. -/
theorem likeMatch_empty_pattern (x : String) : likeMatch "%%" x = true := by
  show likeChars ['%', '%'] x.toList = true
  rw [likeChars]
  rw [List.any_eq_true]
  refine ⟨x.toList, ?_, likeChars_percent x.toList⟩
  exact (List.mem_tails _ _).mpr (List.suffix_refl x.toList)

/-- `find?` on a mapped list, when the map preserves the field the predicate
looks at: the first hit is the image of the first hit. -/
theorem find?_map_of_keeps_id (f : Contact → Contact)
    (hf : ∀ r, (f r).id = r.id) (s : Store) (id : Int) :
    (s.map f).find? (fun c => c.id == id) =
      (s.find? (fun c => c.id == id)).map f := by
  induction s with
  | nil => rfl
  | cons r t ih =>
    cases h : (r.id == id) with
    | true =>
        have h' : ((f r).id == id) = true := by rw [hf r]; exact h
        simp [List.find?_cons, h, h']
    | false =>
        have h' : ((f r).id == id) = false := by rw [hf r]; exact h
        simp [List.find?_cons, h, h', ih]

/-! ### Claim theorems -/

/-- C1: the validation decision is a pure function of the two existence
booleans and follows the 2x2 decision table: both flags set gives the
both-conflict message with submission blocked, only the email flag the
email-conflict message blocked, only the phone flag the phone-conflict
message blocked, neither flag no message and submission allowed; the three
conflict messages are pairwise distinct. -/
theorem validate_decision_table :
    (∀ e p, submissionAllowed (validate_decision e p) = (!e && !p)) ∧
    validate_decision true true =
      ("⛔ Email and phone number already exist in your contacts", disabledButtonHtml) ∧
    validate_decision true false =
      ("⛔ This email already exists in your contacts", disabledButtonHtml) ∧
    validate_decision false true =
      ("⛔ This phone number already exists in your contacts", disabledButtonHtml) ∧
    validate_decision false false = ("", saveButtonHtml) ∧
    (validate_decision true true).1 ≠ (validate_decision true false).1 ∧
    (validate_decision true true).1 ≠ (validate_decision false true).1 ∧
    (validate_decision true false).1 ≠ (validate_decision false true).1 := by
  refine ⟨fun e p => ?_, ?_, ?_, ?_, ?_, ?_, ?_, ?_⟩
  · cases e <;> cases p <;> decide
  all_goals decide

/-- C6: `delete` always succeeds, whether or not a row with the id exists,
deleting again succeeds with the same state (idempotence), and `find_by_id`
on the deleted id fails with the row-not-found error. -/
theorem delete_then_find_fails (s : Store) (id : Int) :
    ∃ s', Contact.delete s id = .ok s' ∧
      Contact.find_by_id s' id = .error DbError.RowNotFound ∧
      Contact.delete s' id = .ok s' := by
  refine ⟨s.filter (fun c => c.id != id), rfl, ?_, ?_⟩
  · unfold Contact.find_by_id
    have hnone : (s.filter (fun c => c.id != id)).find? (fun c => c.id == id) = none := by
      rw [List.find?_eq_none]
      intro x hx
      have hne := (List.mem_filter.mp hx).2
      simp only [bne_iff_ne, ne_eq] at hne
      simpa using hne
    rw [hnone]
  · unfold Contact.delete
    congr 1
    rw [List.filter_eq_self]
    intro a ha
    exact (List.mem_filter.mp ha).2

/-- C10: the collection listing handler defaults an absent `page` query
parameter to page 1 and always passes the fixed constant `PER_PAGE = 10`,
so at most 10 contacts come back, for both the search and the plain listing
branch. -/
theorem contacts_handler_defaults (s : Store) (q : Option String)
    (pageParam : Option Int) :
    contactsHandler s q none = contactsHandler s q (some 1) ∧
    (contactsHandler s q pageParam).length ≤ 10 ∧
    PER_PAGE = 10 := by
  refine ⟨by cases q <;> rfl, ?_, rfl⟩
  cases q with
  | none =>
      simp only [contactsHandler, Contact.get_all, sqlLimitOffset, PER_PAGE]
      rw [if_neg (by decide)]
      calc (((sortById s).drop _).take (Int.toNat 10)).length
          ≤ Int.toNat 10 := List.length_take_le _ _
        _ = 10 := rfl
  | some term =>
      simp only [contactsHandler, Contact.search, sqlLimitOffset, PER_PAGE]
      rw [if_neg (by decide)]
      calc ((List.drop _ _).take (Int.toNat 10)).length
          ≤ Int.toNat 10 := List.length_take_le _ _
        _ = 10 := rfl

/-- C2 counterexample: `post_edit_contact` performs no uniqueness
validation.  With Alice and Bob stored, an edit of Bob that reuses Alice's
email is accepted: the store write runs and Bob's row now carries an email
that already belongs to a different stored contact, although the existence
check over that email reports a collision. -/
theorem edit_bypasses_validation :
    Contact.validate_email demoStore editToAliceEmail.email = true ∧
    alice ∈ demoStore ∧ alice.email = editToAliceEmail.email ∧ alice.id ≠ 2 ∧
    post_edit_contact demoStore 2 editToAliceEmail =
      .ok [alice,
        { id := 2, first_name := "Bob", last_name := "Brown",
          phone_number := "555", email := "alice@x.com",
          created_at := "2024-01-02" }] := by
  decide

/-- C2 (amended): on a create submission, `create` is invoked exactly when
the existence checks over the submitted email and phone both come back
false, and the store is left untouched otherwise; an edit submission runs
no uniqueness validation — whenever the id resolves, the update is written
unconditionally. -/
theorem write_gating (s : Store) (nc : NewContact) (now : String)
    (id : Int) (c : Contact) (hfind : Contact.find_by_id s id = .ok c) :
    ((Contact.validate_email s nc.email || Contact.validate_phone s nc.phone_number) = true →
      post_new_contact s nc now =
        (.errorMessage "Email and/or phone number is already in use. Contact NOT SAVED", s)) ∧
    ((Contact.validate_email s nc.email || Contact.validate_phone s nc.phone_number) = false →
      post_new_contact s nc now =
        (.successRedirect "Contact succesfully created. Redirecting",
          (Contact.create s nc now).2)) ∧
    post_edit_contact s id nc = .ok (Contact.update (c.update_from nc) s) := by
  refine ⟨fun h => ?_, fun h => ?_, ?_⟩
  · simp [post_new_contact, h]
  · simp [post_new_contact, h]
  · simp [post_edit_contact, hfind]

/-- C2 witness: the amended theorem applied at the concrete edit of Bob. -/
theorem write_gating_witness :
    post_edit_contact demoStore 2 editToAliceEmail =
      .ok (Contact.update (Contact.update_from bob editToAliceEmail) demoStore) :=
  (write_gating demoStore editToAliceEmail "2024-01-06" 2 bob (by decide)).2.2

/-- C4 counterexample: on final form submission the handler checks the
literal submitted strings, so with a stored row whose email is the empty
string, a create submission whose email field is the empty string (and
whose phone collides with nothing) is rejected — the empty email field does
report a collision, contrary to the claim. -/
theorem final_submission_checks_empty_email :
    emptyEmailForm.email = "" ∧
    Contact.validate_phone emptyEmailStore emptyEmailForm.phone_number = false ∧
    post_new_contact emptyEmailStore emptyEmailForm "2024-01-06" =
      (.errorMessage "Email and/or phone number is already in use. Contact NOT SAVED",
        emptyEmailStore) := by
  decide

/-- C4 (amended): in live field-level validation an absent or empty email
or phone parameter never reports a collision (its flag is false and the
outcome ignores the stored rows); on final form submission the handler
instead checks the literal submitted strings, rejecting exactly when the
existence check over one of them reports a match. -/
theorem empty_field_validation (s : Store) (nc : NewContact) (now : String)
    (emailParam phoneParam : Option String) :
    email_exists_flag s none = false ∧
    email_exists_flag s (some "") = false ∧
    phone_exists_flag s none = false ∧
    phone_exists_flag s (some "") = false ∧
    validate_input s (some "") phoneParam = validate_input s none phoneParam ∧
    validate_input s emailParam (some "") = validate_input s emailParam none ∧
    ((post_new_contact s nc now).2 = s ↔
      (Contact.validate_email s nc.email || Contact.validate_phone s nc.phone_number) = true) := by
  refine ⟨rfl, rfl, rfl, rfl, rfl, rfl, ?_⟩
  by_cases h : (Contact.validate_email s nc.email || Contact.validate_phone s nc.phone_number) = true
  · simp [post_new_contact, h]
  · simp only [post_new_contact, h, if_neg, Bool.not_eq_true] at *
    simp [h, Contact.create]

/-- C7: a store-level `update` built from a fetched contact and fresh form
fields, followed by `find_by_id` on the same id, returns exactly the four
submitted fields with the row's original `id` and `created_at` unchanged. -/
theorem update_then_find (s : Store) (id : Int) (c0 : Contact) (nc : NewContact)
    (hfind : Contact.find_by_id s id = .ok c0) :
    Contact.find_by_id (Contact.update (c0.update_from nc) s) id =
      .ok { id := c0.id, first_name := nc.first_name, last_name := nc.last_name,
            phone_number := nc.phone_number, email := nc.email,
            created_at := c0.created_at } := by
  unfold Contact.find_by_id at hfind ⊢
  cases hf : s.find? (fun c => c.id == id) with
  | none => rw [hf] at hfind; cases hfind
  | some c =>
      rw [hf] at hfind
      have hc : c = c0 := by cases hfind; rfl
      subst hc
      have hkeep : ∀ r : Contact,
          ((fun r =>
            if r.id = (c.update_from nc).id then
              { r with
                first_name := (c.update_from nc).first_name
                last_name := (c.update_from nc).last_name
                phone_number := (c.update_from nc).phone_number
                email := (c.update_from nc).email }
            else r) r).id = r.id := by
        intro r
        by_cases hr : r.id = (c.update_from nc).id <;> simp [hr]
      rw [show Contact.update (c.update_from nc) s =
          s.map (fun r =>
            if r.id = (c.update_from nc).id then
              { r with
                first_name := (c.update_from nc).first_name
                last_name := (c.update_from nc).last_name
                phone_number := (c.update_from nc).phone_number
                email := (c.update_from nc).email }
            else r) from rfl]
      rw [find?_map_of_keeps_id _ hkeep, hf]
      have hid : c.id = (c.update_from nc).id := rfl
      simp [Contact.update_from, Option.map_some']

/-- C7 witness: updating Bob's row in the two-row store with the concrete
form fields and reading it back. -/
theorem update_then_find_witness :
    Contact.find_by_id
        (Contact.update (Contact.update_from bob editToAliceEmail) demoStore) 2 =
      .ok { id := bob.id, first_name := editToAliceEmail.first_name,
            last_name := editToAliceEmail.last_name,
            phone_number := editToAliceEmail.phone_number,
            email := editToAliceEmail.email,
            created_at := bob.created_at } :=
  update_then_find demoStore 2 bob editToAliceEmail (by decide)

/-- C9: every failure is rendered at the boundary as a single generic
HTTP 500 response, whatever the error and whether or not the 5xx template
itself renders; the response does not distinguish the row-not-found case
from any other storage failure; a failing `find_by_id` in `show_contact`
propagates (is neither retried nor suppressed) and surfaces as that 500. -/
theorem error_responses_500 (e : AppError) (render : Except String String)
    (s : Store) (id : Int) (de : DbError)
    (hfail : Contact.find_by_id s id = .error de) :
    (into_response e render).status = 500 ∧
    serve (show_contact s id) render = into_response (.fromDb de) render ∧
    (serve (show_contact s id) render).status = 500 ∧
    into_response (.fromDb DbError.RowNotFound) render =
      into_response (.fromDb de) render := by
  have hserve : serve (show_contact s id) render = into_response (.fromDb de) render := by
    simp [show_contact, serve, hfail, Except.mapError]
  refine ⟨?_, hserve, ?_, ?_⟩
  · cases render <;> rfl
  · rw [hserve]; cases render <;> rfl
  · cases render <;> rfl

/-- C9 witness: looking up id 1 in the empty store fails with row-not-found
and is served as a 500. -/
theorem error_responses_500_witness :
    (into_response (.fromDb DbError.RowNotFound) (.ok "rendered 5xx page")).status = 500 ∧
    (serve (show_contact [] 1) (.ok "rendered 5xx page")).status = 500 :=
  ⟨(error_responses_500 (.fromDb DbError.RowNotFound) (.ok "rendered 5xx page")
      [] 1 DbError.RowNotFound (by decide)).1,
   (error_responses_500 (.fromDb DbError.RowNotFound) (.ok "rendered 5xx page")
      [] 1 DbError.RowNotFound (by decide)).2.2.1⟩

/-- C3: with the table in its physical order (ascending rowid, which is
ascending id — the only order SQLite's scan produces for this schema),
searching with the empty term returns exactly the rows, in the same
relative order, that the plain listing returns for the same page and
per_page: the empty term's pattern `%%` matches every row. -/
theorem search_empty_term_eq_get_all (s : Store) (page per_page : Int)
    (hs : List.Sorted idLe s) :
    Contact.search s "" page per_page = Contact.get_all s page per_page := by
  show sqlLimitOffset per_page ((page - 1) * per_page)
      (s.filter (fun c => likeMatch ("%" ++ "" ++ "%") c.first_name ||
        likeMatch ("%" ++ "" ++ "%") c.last_name)) =
    sqlLimitOffset per_page ((page - 1) * per_page) (sortById s)
  rw [sortById, hs.insertionSort_eq]
  congr 1
  rw [List.filter_eq_self]
  intro a _
  simp [likeMatch_empty_pattern]

/-- C3 witness: the two-row store, page 1, per_page 10. -/
theorem search_empty_term_eq_get_all_witness :
    List.Sorted idLe demoStore ∧
    Contact.search demoStore "" 1 10 = Contact.get_all demoStore 1 10 :=
  ⟨by decide, search_empty_term_eq_get_all demoStore 1 10 (by decide)⟩

/-- C8: `get_all` returns rows sorted by ascending id; with nonnegative
per_page it returns at most per_page rows, shaped as "drop the offset, take
per_page" over the id-sorted table; when additionally page ≥ 1 the offset
(page-1)*per_page is nonnegative so exactly that many rows are skipped; and
for every page — zero and negative included — the product (page-1)*per_page
is handed to the storage layer unclamped. -/
theorem get_all_contract (s : Store) (page per_page : Int) :
    List.Sorted idLe (Contact.get_all s page per_page) ∧
    (0 ≤ per_page → (Contact.get_all s page per_page).length ≤ per_page.toNat) ∧
    (0 ≤ per_page →
      Contact.get_all s page per_page =
        ((sortById s).drop (((page - 1) * per_page).toNat)).take per_page.toNat) ∧
    (1 ≤ page → 0 ≤ per_page →
      ((((page - 1) * per_page).toNat : Int) = (page - 1) * per_page)) ∧
    Contact.get_all s page per_page =
      sqlLimitOffset per_page ((page - 1) * per_page) (sortById s) := by
  have hsorted : List.Sorted idLe (sortById s) := List.sorted_insertionSort idLe s
  refine ⟨?_, ?_, ?_, ?_, rfl⟩
  · show List.Sorted idLe (sqlLimitOffset per_page ((page - 1) * per_page) (sortById s))
    by_cases h : per_page < 0
    · show List.Sorted idLe (if per_page < 0 then _ else _)
      rw [if_pos h]
      exact List.Pairwise.sublist (List.drop_sublist _ _) hsorted
    · show List.Sorted idLe (if per_page < 0 then _ else _)
      rw [if_neg h]
      exact List.Pairwise.sublist
        ((List.take_sublist _ _).trans (List.drop_sublist _ _)) hsorted
  · intro h
    show (sqlLimitOffset per_page ((page - 1) * per_page) (sortById s)).length ≤ _
    show (if per_page < 0 then _ else _ : List Contact).length ≤ _
    rw [if_neg (not_lt.mpr h)]
    exact List.length_take_le _ _
  · intro h
    show sqlLimitOffset per_page ((page - 1) * per_page) (sortById s) = _
    show (if per_page < 0 then _ else _ : List Contact) = _
    rw [if_neg (not_lt.mpr h)]
  · intro hp hpp
    exact Int.toNat_of_nonneg (mul_nonneg (by omega) hpp)

/-- C8 witness: page 2 of size 2 over the four-row store. -/
theorem get_all_contract_witness :
    (0:Int) ≤ 2 ∧ (1:Int) ≤ 2 ∧
    (Contact.get_all fourStore 2 2).length ≤ (2:Int).toNat ∧
    Contact.get_all fourStore 2 2 =
      ((sortById fourStore).drop ((((2:Int) - 1) * 2).toNat)).take (2:Int).toNat :=
  ⟨by decide, by decide,
   (get_all_contract fourStore 2 2).2.1 (by decide),
   (get_all_contract fourStore 2 2).2.2.1 (by decide)⟩

/-- C5 counterexample: with four rows stored, N = 2, M = 1 satisfies "at
least N+M records", yet page 1 and page 2 of size 2 concatenate to all four
rows while page 1 of size 2N truncated to N+M keeps only three — the
claimed equation fails for a store holding more than N+M records. -/
theorem pagination_concat_counterexample :
    (0:Nat) < 2 ∧ (0:Nat) < 1 ∧ 2 + 1 ≤ fourStore.length ∧
    ¬ (Contact.get_all fourStore 1 2 ++ Contact.get_all fourStore 2 2 =
        (Contact.get_all fourStore 1 (2 * 2)).take (2 + 1)) := by
  decide

/-- C5 (amended): for every store holding exactly N+M records (N, M > 0),
page 1 of size N concatenated with page 2 of size N equals page 1 of size
2N truncated to the first N+M records, in the same relative order; and when
the store has no duplicate rows the concatenation has none either (no
duplicates, no gaps). -/
theorem pagination_concat (s : Store) (N M : Nat) (hN : 0 < N) (_hM : 0 < M)
    (hlen : s.length = N + M) :
    (Contact.get_all s 1 (N : Int) ++ Contact.get_all s 2 (N : Int) =
      (Contact.get_all s 1 ((2 * N : Nat) : Int)).take (N + M)) ∧
    (s.Nodup → (Contact.get_all s 1 (N : Int) ++ Contact.get_all s 2 (N : Int)).Nodup) := by
  have hNnn : ¬ ((N : Int) < 0) := not_lt.mpr (Int.natCast_nonneg N)
  have h2Nnn : ¬ (((2 * N : Nat) : Int) < 0) := not_lt.mpr (Int.natCast_nonneg _)
  have hL : (sortById s).length = N + M := by
    rw [sortById, List.length_insertionSort]; exact hlen
  have h1 : Contact.get_all s 1 (N : Int) = (sortById s).take N := by
    show sqlLimitOffset (N : Int) ((1 - 1) * N) (sortById s) = _
    simp [sqlLimitOffset, hNnn]
  have h2 : Contact.get_all s 2 (N : Int) = ((sortById s).drop N).take N := by
    show sqlLimitOffset (N : Int) ((2 - 1) * N) (sortById s) = _
    simp [sqlLimitOffset, hNnn]
  have h3 : Contact.get_all s 1 ((2 * N : Nat) : Int) = (sortById s).take (2 * N) := by
    show sqlLimitOffset ((2 * N : Nat) : Int) ((1 - 1) * ((2 * N : Nat) : Int)) (sortById s) = _
    simp only [sqlLimitOffset]
    rw [if_neg h2Nnn]
    have hoff : ((1 - 1 : Int) * ((2 * N : Nat) : Int)) = 0 := by norm_num
    rw [hoff]
    simp [List.take_eq_take]
    omega
  have hconcat : Contact.get_all s 1 (N : Int) ++ Contact.get_all s 2 (N : Int) =
      (sortById s).take (N + N) := by
    rw [h1, h2, List.take_add]
  refine ⟨?_, ?_⟩
  · rw [hconcat, h3, List.take_take, List.take_eq_take, hL]
    omega
  · intro hnodup
    rw [hconcat]
    exact List.Nodup.sublist (List.take_sublist _ _)
      ((List.perm_insertionSort idLe s).nodup_iff.mpr hnodup)

/-- C5 witness: the amended equation at the three-row store with N = 2,
M = 1. -/
theorem pagination_concat_witness :
    (0:Nat) < 2 ∧ (0:Nat) < 1 ∧ threeStore.length = 2 + 1 ∧
    (Contact.get_all threeStore 1 ((2 : Nat) : Int) ++
        Contact.get_all threeStore 2 ((2 : Nat) : Int) =
      (Contact.get_all threeStore 1 ((2 * 2 : Nat) : Int)).take (2 + 1)) :=
  ⟨by decide, by decide, by decide,
   (pagination_concat threeStore 2 1 (by decide) (by decide) (by decide)).1⟩

end Webone
